import Mathlib

/-!
Verification of `kitsune/questions/static/questions/js/actions/AAQActions.es6.js`.

The module is a thin action-dispatch layer: each operation translates a UI
call into typed events posted on a dispatch bus, and two operations
(`searchSuggestions`, `submitQuestion`) additionally fire an HTTP request
whose success/failure handlers post further events.

The embedding threads an explicit `World`: the externally owned question
draft (read through `QuestionEditStore.getQuestion()` in the source), the
dispatch bus (append-only list of events), and the list of HTTP requests
fired so far.  Each source function becomes a `World`-transformer; AJAX
handlers become separate transformers applied when the request's outcome
arrives.  The `_.throttle(searchSuggestions, 500)` wrapper (underscore.js,
library code not present in the repository) is modelled as an explicit
state machine over a discrete millisecond clock.
-/

namespace AAQ

/-- A document record of the suggestion response body (`data.documents`).
The server sends `title`, `url`, `summary`; the handler later assigns the
`type` field in place, so it is carried as an `Option` initialised to
`none`. -/
structure DocRecord where
  title : String
  url : String
  summary : String
  type : Option String := none
  deriving DecidableEq, Repr

/-- A question record of the suggestion response body (`data.questions`).
The handler assigns `type`, `url` and `summary` in place, so those are
carried as `Option`s initialised to whatever the server sent (possibly
nothing). -/
structure QuestionRecord where
  id : Nat
  title : String
  url : Option String := none
  summary : Option String := none
  type : Option String := none
  deriving DecidableEq, Repr

/-- A suggestion entry of a SET_SUGGESTIONS payload: an element of
`docSuggestions.concat(questionSuggestions)` in the source, i.e. either a
(tagged) document record or a (tagged) question record. -/
inductive Suggestion where
  | doc (d : DocRecord)
  | question (q : QuestionRecord)
  deriving DecidableEq, Repr

/-- The action tags of `AAQConstants.actionTypes` used by this module,
together with the payload each dispatch site attaches.  Product, topic and
content payloads are opaque to the module, hence the type parameter. -/
inductive Event (α : Type) where
  | SET_PRODUCT (product : α)
  | SET_TOPIC (topic : α)
  | SET_TITLE (title : String)
  | SET_SUGGESTIONS (suggestions : List Suggestion)
  | SET_CONTENT (content : α)
  | QUESTION_SUBMIT_OPTIMISTIC
  | QUESTION_SUBMIT_SUCCESS
  | QUESTION_SUBMIT_FAILURE (error : String)
  deriving DecidableEq, Repr

/-- The `type` field of a suggestion entry. -/
def Suggestion.type : Suggestion → Option String
  | .doc d => d.type
  | .question q => q.type

/-- The `url` field of a suggestion entry (always present on documents). -/
def Suggestion.url : Suggestion → Option String
  | .doc d => some d.url
  | .question q => q.url

/-- The `summary` field of a suggestion entry (always present on
documents). -/
def Suggestion.summary : Suggestion → Option String
  | .doc d => some d.summary
  | .question q => q.summary

/-- The `title` field of a suggestion entry. -/
def Suggestion.title : Suggestion → String
  | .doc d => d.title
  | .question q => q.title

/-- The `id` of a suggestion entry, when it is a question record. -/
def Suggestion.id : Suggestion → Option Nat
  | .doc _ => none
  | .question q => some q.id

/-- The question draft held by `QuestionEditStore`, read via
`getQuestion()`: product (opaque), topic (opaque), title and content. -/
structure QuestionDraft (α : Type) where
  product : α
  topic : α
  title : String
  content : String
  deriving DecidableEq, Repr

/-- The query parameters of the suggestion GET request (`data:` object of
the `$.ajax` call in `searchSuggestions`). -/
structure SuggestParams (α : Type) where
  q : String
  max_questions : Nat
  max_documents : Nat
  product : α
  deriving DecidableEq, Repr

/-- An HTTP request fired by the module: the suggestion GET, or the
question-submission POST carrying the draft body and the `X-CSRFToken`
header installed by `beforeSend`. -/
inductive Request (α : Type) where
  | get (url : String) (params : SuggestParams α)
  | post (url : String) (body : QuestionDraft α) (csrfToken : String)
  deriving DecidableEq, Repr

/-- The outcome of an AJAX request as observed by its `.done`/`.fail`
handlers: a response body, or a failure with its HTTP status text. -/
inductive AjaxResult (ρ : Type) where
  | success (data : ρ)
  | failure (statusText : String)
  deriving DecidableEq, Repr

/-- The JSON body of a successful suggestion response.  Each array is
`Option`al: the handler dereferences `data.documents` and
`data.questions` without checking, so absence makes it throw. -/
structure SuggestResponse where
  documents : Option (List DocRecord)
  questions : Option (List QuestionRecord)
  deriving DecidableEq, Repr

/-- The state visible to the module: the external draft store, the
dispatch bus (events posted so far, in order) and the HTTP requests fired
so far, in order. -/
structure World (α : Type) where
  store : QuestionDraft α
  bus : List (Event α)
  requests : List (Request α)
  deriving DecidableEq, Repr

variable {α β ρ : Type}

/-- Source `setProduct(product)`: dispatch one SET_PRODUCT event. -/
def setProduct (product : α) (w : World α) : World α :=
  { w with bus := w.bus ++ [Event.SET_PRODUCT product] }

/-- Source `setTopic(topic)`: dispatch one SET_TOPIC event. -/
def setTopic (topic : α) (w : World α) : World α :=
  { w with bus := w.bus ++ [Event.SET_TOPIC topic] }

/-- Source `setContent(content)`: dispatch one SET_CONTENT event. -/
def setContent (content : α) (w : World α) : World α :=
  { w with bus := w.bus ++ [Event.SET_CONTENT content] }

/-- Source `setSuggestions(suggestions)`: dispatch one SET_SUGGESTIONS
event. -/
def setSuggestions (suggestions : List Suggestion) (w : World α) : World α :=
  { w with bus := w.bus ++ [Event.SET_SUGGESTIONS suggestions] }

/-- The `$.ajax` call inside `searchSuggestions`: a GET to
`/api/2/search/suggest` whose parameters read
`QuestionEditStore.getQuestion().product` at fire time. -/
def searchSuggestionsFire (title : String) (w : World α) : World α :=
  { w with requests := w.requests ++
      [Request.get "/api/2/search/suggest"
        { q := title, max_questions := 2, max_documents := 2,
          product := w.store.product }] }

/-- `document.type = 'document'` applied to one document record of the
response (the `.map` body over `data.documents`). -/
def tagDocument (d : DocRecord) : DocRecord :=
  { d with type := some "document" }

/-- The `.map` body over `data.questions`: assign `type`, derive `url`
from the id, blank the summary. -/
def tagQuestion (q : QuestionRecord) : QuestionRecord :=
  { q with type := some "question",
           url := some ("/questions/" ++ toString q.id),
           summary := some "" }

/-- The computation of the `.done` handler of `searchSuggestions`: map
`data.documents`, then map `data.questions`, then concatenate
documents-then-questions.  Dereferencing a missing array throws, which is
modelled as `Except.error`; the source evaluates `data.documents.map`
first. -/
def suggestDone (data : SuggestResponse) : Except String (List Suggestion) :=
  match data.documents with
  | none => Except.error "TypeError: data.documents is undefined"
  | some docs =>
    let docSuggestions := docs.map fun d => Suggestion.doc (tagDocument d)
    match data.questions with
    | none => Except.error "TypeError: data.questions is undefined"
    | some questions =>
      let questionSuggestions :=
        questions.map fun q => Suggestion.question (tagQuestion q)
      Except.ok (docSuggestions ++ questionSuggestions)

/-- The handlers attached by `searchSuggestions`: on success, compute the
suggestions and call `setSuggestions`; a thrown exception aborts the
handler before the dispatch; on failure, only `console.log` runs, so the
world is unchanged. -/
def searchSuggestionsCallback (r : AjaxResult SuggestResponse) (w : World α) :
    World α :=
  match r with
  | .success data =>
    match suggestDone data with
    | .ok suggestions => setSuggestions suggestions w
    | .error _ => w
  | .failure _ => w

/-- Source `submitQuestion()`: dispatch QUESTION_SUBMIT_OPTIMISTIC, read
the full draft from the store, then fire the POST to `/api/2/question/`
with the draft as body and the page's CSRF token as header.  All of this
happens synchronously, before any handler can run. -/
def submitQuestion (csrf : String) (w : World α) : World α :=
  { w with
    bus := w.bus ++ [Event.QUESTION_SUBMIT_OPTIMISTIC],
    requests := w.requests ++ [Request.post "/api/2/question/" w.store csrf] }

/-- The handlers attached by `submitQuestion`: `.done` ignores its
arguments and dispatches QUESTION_SUBMIT_SUCCESS; `.fail` dispatches
QUESTION_SUBMIT_FAILURE carrying `err.statusText`. -/
def submitQuestionCallback (r : AjaxResult ρ) (w : World α) : World α :=
  match r with
  | .success _ => { w with bus := w.bus ++ [Event.QUESTION_SUBMIT_SUCCESS] }
  | .failure s =>
    { w with bus := w.bus ++ [Event.QUESTION_SUBMIT_FAILURE s] }

/-- A complete submission: the synchronous part of `submitQuestion`
followed by the handler for the request's eventual outcome. -/
def submitQuestionRun (csrf : String) (r : AjaxResult ρ) (w : World α) :
    World α :=
  submitQuestionCallback r (submitQuestion csrf w)

/-- Modelled from the spec: the state of underscore's
`_.throttle(searchSuggestions, 500)` wrapper (underscore.js is not part of
this repository).  Per the spec, the first call in a window fires
immediately, intermediate calls within the window are dropped except that
at most one trailing call fires after the window using the latest
arguments.  `start`: no call has fired yet.  `cooling p`: the last fire
happened at time `p`, no trailing call is scheduled.  `scheduled p a`: the
last fire happened at time `p` and a trailing fire with arguments `a` is
scheduled for time `p + wait`. -/
inductive ThrottleState (β : Type) where
  | start
  | cooling (previous : Nat)
  | scheduled (previous : Nat) (args : β)
  deriving DecidableEq, Repr

/-- Modelled from the spec: one call of the throttled function at time `t`
with arguments `a`.  Returns the fires (time, arguments) executed by the
wrapped function up to and including this call — a trailing fire whose
scheduled time has passed is delivered first — and the new throttle
state. -/
def throttleStep (wait : Nat) (st : ThrottleState β) (t : Nat) (a : β) :
    List (Nat × β) × ThrottleState β :=
  match st with
  | .start => ([(t, a)], .cooling t)
  | .cooling p =>
    if p + wait ≤ t then ([(t, a)], .cooling t)
    else ([], .scheduled p a)
  | .scheduled p b =>
    if p + wait ≤ t then
      if p + wait + wait ≤ t then ([(p + wait, b), (t, a)], .cooling t)
      else ([(p + wait, b)], .scheduled (p + wait) a)
    else ([], .scheduled p a)

/-- Modelled from the spec: the trailing fire still pending once no
further call arrives. -/
def throttleFlush (wait : Nat) : ThrottleState β → List (Nat × β)
  | .scheduled p b => [(p + wait, b)]
  | _ => []

/-- All fires produced by a sequence of timestamped calls, including the
final pending trailing fire. -/
def throttleAll (wait : Nat) (st : ThrottleState β) :
    List (Nat × β) → List (Nat × β)
  | [] => throttleFlush wait st
  | (t, a) :: rest =>
    let step := throttleStep wait st t a
    step.1 ++ throttleAll wait step.2 rest

/-- Source `searchSuggestions` as rebound by
`searchSuggestions = _.throttle(searchSuggestions, 500)`: a call at time
`t` updates the throttle state, and each fire it releases runs the
original function body, firing one GET request. -/
def searchSuggestions (title : String) (t : Nat) (st : ThrottleState String)
    (w : World α) : World α × ThrottleState String :=
  let step := throttleStep 500 st t title
  (step.1.foldl (fun acc f => searchSuggestionsFire f.2 acc) w, step.2)

/-- Source `setTitle(title)` at time `t`: dispatch one SET_TITLE event,
then call the throttled `searchSuggestions(title)`. -/
def setTitle (title : String) (t : Nat) (st : ThrottleState String)
    (w : World α) : World α × ThrottleState String :=
  let w₁ := { w with bus := w.bus ++ [Event.SET_TITLE title] }
  searchSuggestions title t st w₁

/-- Running a sequence of timestamped `setTitle` calls from the initial
throttle state. -/
def runSetTitles (calls : List (Nat × String)) (w : World α) :
    World α × ThrottleState String :=
  calls.foldl
    (fun (acc : World α × ThrottleState String) c => setTitle c.2 c.1 acc.2 acc.1)
    (w, ThrottleState.start)

/-- A sequence of `setTitle` calls followed by the delivery of the pending
trailing fire, if any. -/
def runScenario (calls : List (Nat × String)) (w : World α) : World α :=
  let r := runSetTitles calls w
  (throttleFlush 500 r.2).foldl (fun acc f => searchSuggestionsFire f.2 acc) r.1

/-- Folding suggestion-request fires leaves the draft store unchanged. -/
lemma foldl_fire_store (l : List (Nat × String)) (w : World α) :
    (l.foldl (fun acc f => searchSuggestionsFire f.2 acc) w).store = w.store := by
  induction l generalizing w with
  | nil => rfl
  | cons x xs ih => exact ih (searchSuggestionsFire x.2 w)

/-- Folding suggestion-request fires posts nothing on the bus. -/
lemma foldl_fire_bus (l : List (Nat × String)) (w : World α) :
    (l.foldl (fun acc f => searchSuggestionsFire f.2 acc) w).bus = w.bus := by
  induction l generalizing w with
  | nil => rfl
  | cons x xs ih => exact ih (searchSuggestionsFire x.2 w)

/-- Folding suggestion-request fires appends exactly one GET per fire,
each with `q` the fire's title and the store's product at fire time. -/
lemma foldl_fire_requests (l : List (Nat × String)) (w : World α) :
    (l.foldl (fun acc f => searchSuggestionsFire f.2 acc) w).requests =
      w.requests ++ l.map (fun f =>
        Request.get "/api/2/search/suggest"
          { q := f.2, max_questions := 2, max_documents := 2,
            product := w.store.product }) := by
  induction l generalizing w with
  | nil => simp
  | cons x xs ih =>
    have h := ih (searchSuggestionsFire x.2 w)
    simp only [List.foldl_cons]
    rw [h]
    simp [searchSuggestionsFire]

/-- C7: for every payload value, each of setProduct, setTopic and
setContent posts exactly one event of the corresponding tag carrying the
given payload, synchronously, with no validation, no failure mode and no
side effect other than that single bus post (the store, the request list
and the rest of the bus are untouched). -/
theorem forwarding_actions (product topic content : α)
    (w₁ w₂ w₃ : World α) :
    setProduct product w₁ =
      { w₁ with bus := w₁.bus ++ [Event.SET_PRODUCT product] } ∧
    setTopic topic w₂ =
      { w₂ with bus := w₂.bus ++ [Event.SET_TOPIC topic] } ∧
    setContent content w₃ =
      { w₃ with bus := w₃.bus ++ [Event.SET_CONTENT content] } :=
  ⟨rfl, rfl, rfl⟩

/-- C8: every suggestion-search request that fires is a GET to
`/api/2/search/suggest` with exactly the parameters q = the fire's title
argument, max_questions = 2, max_documents = 2 and product = the product
field of the draft returned by the store at the moment the request fires;
this holds for the raw body and for every fire released by the throttled
wrapper. -/
theorem suggest_request_shape (title : String) (t : Nat)
    (st : ThrottleState String) (w : World α) :
    (searchSuggestionsFire title w).requests = w.requests ++
      [Request.get "/api/2/search/suggest"
        { q := title, max_questions := 2, max_documents := 2,
          product := w.store.product }] ∧
    (searchSuggestions title t st w).1.requests = w.requests ++
      (throttleStep 500 st t title).1.map (fun f =>
        Request.get "/api/2/search/suggest"
          { q := f.2, max_questions := 2, max_documents := 2,
            product := w.store.product }) :=
  ⟨rfl, foldl_fire_requests _ _⟩

/-- C6: on a failing suggestion response nothing happens: the fail handler
only logs, so the world — bus, store and requests — is left exactly as it
was, and the request fire itself posts no bus event either. -/
theorem suggest_failure_silent (s : String) (title : String) (w : World α) :
    searchSuggestionsCallback (AjaxResult.failure s) w = w ∧
    (searchSuggestionsFire title w).bus = w.bus :=
  ⟨rfl, rfl⟩

/-- C2: submitQuestion posts QUESTION_SUBMIT_OPTIMISTIC synchronously,
before the POST fires and hence before either handler can run; the success
handler then posts exactly one QUESTION_SUBMIT_SUCCESS regardless of the
response body, and the failure handler posts exactly one
QUESTION_SUBMIT_FAILURE whose error payload is the HTTP status text. -/
theorem submitQuestion_events (csrf : String) (w : World α) (r : ρ)
    (s : String) :
    (submitQuestion csrf w).bus =
      w.bus ++ [Event.QUESTION_SUBMIT_OPTIMISTIC] ∧
    (submitQuestion csrf w).requests =
      w.requests ++ [Request.post "/api/2/question/" w.store csrf] ∧
    (submitQuestionRun csrf (AjaxResult.success r) w).bus = w.bus ++
      [Event.QUESTION_SUBMIT_OPTIMISTIC, Event.QUESTION_SUBMIT_SUCCESS] ∧
    (submitQuestionRun csrf (AjaxResult.failure s : AjaxResult ρ) w).bus =
      w.bus ++ [Event.QUESTION_SUBMIT_OPTIMISTIC,
        Event.QUESTION_SUBMIT_FAILURE s] := by
  refine ⟨rfl, rfl, ?_, ?_⟩ <;>
    simp [submitQuestionRun, submitQuestion, submitQuestionCallback]

/-- C9: no operation of the module ever writes the external draft store:
every operation, handler included, leaves `store` exactly as it found
it. -/
theorem store_read_only (p c tp : α) (title csrf : String) (t : Nat)
    (st : ThrottleState String) (sugg : List Suggestion)
    (rs : AjaxResult SuggestResponse) (rq : AjaxResult ρ) (w : World α) :
    (setProduct p w).store = w.store ∧
    (setTopic tp w).store = w.store ∧
    (setContent c w).store = w.store ∧
    (setSuggestions sugg w).store = w.store ∧
    (setTitle title t st w).1.store = w.store ∧
    (searchSuggestions title t st w).1.store = w.store ∧
    (searchSuggestionsFire title w).store = w.store ∧
    (searchSuggestionsCallback rs w).store = w.store ∧
    (submitQuestion csrf w).store = w.store ∧
    (submitQuestionCallback rq w).store = w.store := by
  refine ⟨rfl, rfl, rfl, rfl, foldl_fire_store _ _, foldl_fire_store _ _,
    rfl, ?_, rfl, ?_⟩
  · cases rs with
    | success data =>
      cases h : suggestDone data <;>
        simp [searchSuggestionsCallback, h, setSuggestions]
    | failure s => rfl
  · cases rq <;> rfl

/-- When both arrays are present, the done handler computes exactly the
tagged documents followed by the tagged questions. -/
lemma suggestDone_eq (data : SuggestResponse) (docs : List DocRecord)
    (questions : List QuestionRecord) (hd : data.documents = some docs)
    (hq : data.questions = some questions) :
    suggestDone data = Except.ok
      ((docs.map fun d => Suggestion.doc (tagDocument d)) ++
        questions.map fun q => Suggestion.question (tagQuestion q)) := by
  unfold suggestDone
  rw [hd, hq]

/-- C1: on a successful suggestion response with N documents and M
questions, exactly one SET_SUGGESTIONS event is posted, whose payload has
length N+M with the tagged document entries first and the tagged question
entries after them; every question entry has type "question", url equal to
"/questions/{id}" for its id and summary "", and every document entry has
type "document". -/
theorem suggest_success_payload (w : World α) (data : SuggestResponse)
    (docs : List DocRecord) (questions : List QuestionRecord)
    (hd : data.documents = some docs) (hq : data.questions = some questions) :
    (searchSuggestionsCallback (AjaxResult.success data) w).bus = w.bus ++
      [Event.SET_SUGGESTIONS
        ((docs.map fun d => Suggestion.doc (tagDocument d)) ++
          questions.map fun q => Suggestion.question (tagQuestion q))] ∧
    ((docs.map fun d => Suggestion.doc (tagDocument d)) ++
        questions.map fun q => Suggestion.question (tagQuestion q)).length =
      docs.length + questions.length ∧
    (∀ d ∈ docs, (Suggestion.doc (tagDocument d)).type = some "document") ∧
    (∀ q ∈ questions,
      (Suggestion.question (tagQuestion q)).type = some "question" ∧
      (Suggestion.question (tagQuestion q)).url =
        some ("/questions/" ++ toString q.id) ∧
      (Suggestion.question (tagQuestion q)).summary = some "") := by
  refine ⟨?_, by simp, fun d _ => rfl, fun q _ => ⟨rfl, rfl, rfl⟩⟩
  show (match suggestDone data with
    | Except.ok suggestions => setSuggestions suggestions w
    | Except.error _ => w).bus = _
  rw [suggestDone_eq data docs questions hd hq]
  rfl

/-- A concrete document list for evaluating the success path. -/
def sampleDocs : List DocRecord :=
  [{ title := "Fix crashes", url := "/kb/fix-crashes", summary := "how to" }]

/-- A concrete question list for evaluating the success path. -/
def sampleQuestions : List QuestionRecord :=
  [{ id := 7, title := "Crash on start" }]

/-- A concrete successful suggestion response body. -/
def sampleResponse : SuggestResponse :=
  { documents := some sampleDocs, questions := some sampleQuestions }

/-- A concrete world with a draft whose product is "firefox". -/
def sampleWorld : World String :=
  { store := { product := "firefox", topic := "crash", title := "t",
               content := "c" },
    bus := [], requests := [] }

/-- C1 witness: the success-payload theorem evaluated on a concrete
response with one document and one question. -/
theorem suggest_success_payload_witness :
    sampleResponse.documents = some sampleDocs ∧
    sampleResponse.questions = some sampleQuestions ∧
    ((searchSuggestionsCallback (AjaxResult.success sampleResponse)
        sampleWorld).bus = sampleWorld.bus ++
      [Event.SET_SUGGESTIONS
        ((sampleDocs.map fun d => Suggestion.doc (tagDocument d)) ++
          sampleQuestions.map fun q => Suggestion.question (tagQuestion q))] ∧
    ((sampleDocs.map fun d => Suggestion.doc (tagDocument d)) ++
        sampleQuestions.map fun q =>
          Suggestion.question (tagQuestion q)).length =
      sampleDocs.length + sampleQuestions.length ∧
    (∀ d ∈ sampleDocs,
      (Suggestion.doc (tagDocument d)).type = some "document") ∧
    (∀ q ∈ sampleQuestions,
      (Suggestion.question (tagQuestion q)).type = some "question" ∧
      (Suggestion.question (tagQuestion q)).url =
        some ("/questions/" ++ toString q.id) ∧
      (Suggestion.question (tagQuestion q)).summary = some "")) :=
  ⟨rfl, rfl, suggest_success_payload sampleWorld sampleResponse sampleDocs
    sampleQuestions rfl rfl⟩

/-- C5 counterexample: a successful response whose single document carries
the server summary "how to" is posted with that summary intact, not with
summary "": the handler assigns only `type` on document records. -/
theorem document_summary_not_blanked :
    (searchSuggestionsCallback (AjaxResult.success
        { documents := some [{ title := "Fix crashes",
                               url := "/kb/fix-crashes",
                               summary := "how to" }],
          questions := some [] }) sampleWorld).bus =
      [Event.SET_SUGGESTIONS [Suggestion.doc
        { title := "Fix crashes", url := "/kb/fix-crashes",
          summary := "how to", type := some "document" }]] ∧
    (Suggestion.doc { title := "Fix crashes", url := "/kb/fix-crashes",
                      summary := "how to",
                      type := some "document" }).summary ≠ some "" :=
  ⟨rfl, by decide⟩

/-- C5 (amended): tagging a document record sets only its type field —
title, url and, in particular, summary keep the server-provided values, so
a posted document entry's summary equals the response document's summary
and need not be ""; question entries do get summary "". -/
theorem tagDocument_sets_only_type (d : DocRecord) (q : QuestionRecord) :
    (Suggestion.doc (tagDocument d)).type = some "document" ∧
    (Suggestion.doc (tagDocument d)).summary = some d.summary ∧
    (Suggestion.doc (tagDocument d)).url = some d.url ∧
    (Suggestion.doc (tagDocument d)).title = d.title ∧
    (Suggestion.question (tagQuestion q)).summary = some "" :=
  ⟨rfl, rfl, rfl, rfl, rfl⟩

/-- C10: when the response body lacks its documents array or its questions
array, the done handler throws before reaching the dispatch, so the world
is unchanged and no SET_SUGGESTIONS event is posted. -/
theorem suggest_missing_arrays (w : World α) (data : SuggestResponse)
    (h : data.documents = none ∨ data.questions = none) :
    (∃ e, suggestDone data = Except.error e) ∧
    searchSuggestionsCallback (AjaxResult.success data) w = w := by
  have herr : ∃ e, suggestDone data = Except.error e := by
    obtain ⟨dd, qq⟩ := data
    rcases h with h | h
    · cases dd with
      | none => exact ⟨_, rfl⟩
      | some l => simp at h
    · cases qq with
      | none =>
        cases dd with
        | none => exact ⟨_, rfl⟩
        | some l => exact ⟨_, rfl⟩
      | some l => simp at h
  obtain ⟨e, he⟩ := herr
  refine ⟨⟨e, he⟩, ?_⟩
  show (match suggestDone data with
    | Except.ok suggestions => setSuggestions suggestions w
    | Except.error _ => w) = w
  rw [he]

/-- A concrete response body with no documents array. -/
def badResponse : SuggestResponse :=
  { documents := none, questions := some [] }

/-- C10 witness: the missing-arrays theorem evaluated on a concrete
response lacking its documents array. -/
theorem suggest_missing_arrays_witness :
    (badResponse.documents = none ∨ badResponse.questions = none) ∧
    ((∃ e, suggestDone badResponse = Except.error e) ∧
      searchSuggestionsCallback (AjaxResult.success badResponse)
        sampleWorld = sampleWorld) :=
  ⟨Or.inl rfl,
    suggest_missing_arrays sampleWorld badResponse (Or.inl rfl)⟩

/-- The time of the most recent fire recorded in a throttle state, if
any. -/
def ThrottleState.refTime : ThrottleState β → Option Nat
  | .start => none
  | .cooling p => some p
  | .scheduled p _ => some p

/-- Invariant of the throttle run: the fires of any sorted call sequence
are spaced at least `wait` apart, and the first of them happens no earlier
than `wait` after the fire recorded in the starting state. -/
lemma throttleAll_gapFrom (wait : Nat) (calls : List (Nat × β)) :
    ∀ st : ThrottleState β,
      List.Chain' (fun x y => x.1 ≤ y.1) calls →
      (∀ p, st.refTime = some p → ∀ c, calls.head? = some c → p ≤ c.1) →
      List.Chain' (fun x y => x.1 + wait ≤ y.1) (throttleAll wait st calls) ∧
      (∀ p, st.refTime = some p →
        ∀ y, (throttleAll wait st calls).head? = some y → p + wait ≤ y.1) := by
  induction calls with
  | nil =>
    intro st _ _
    cases st with
    | start =>
      refine ⟨List.chain'_nil, ?_⟩
      intro p hp y hy
      simp [throttleAll, throttleFlush] at hy
    | cooling q =>
      refine ⟨List.chain'_nil, ?_⟩
      intro p hp y hy
      simp [throttleAll, throttleFlush] at hy
    | scheduled q b =>
      constructor
      · show List.Chain' _ [(q + wait, b)]
        simp
      · intro p hp y hy
        simp [ThrottleState.refTime] at hp
        simp [throttleAll, throttleFlush] at hy
        subst hp
        subst hy
        exact Nat.le_refl _
  | cons c rest ih =>
    intro st hs hr
    obtain ⟨t, a⟩ := c
    have hs' : List.Chain' (fun x y => x.1 ≤ y.1) rest :=
      (List.chain'_cons'.mp hs).2
    have hhead : ∀ c', rest.head? = some c' → t ≤ c'.1 := by
      intro c' hc'
      exact (List.chain'_cons'.mp hs).1 c' (Option.mem_def.mpr hc')
    cases st with
    | start =>
      have ihc := ih (.cooling t) hs' (by
        intro p hp c' hc'
        simp [ThrottleState.refTime] at hp
        subst hp
        exact hhead c' hc')
      constructor
      · show List.Chain' _ ((t, a) :: throttleAll wait (.cooling t) rest)
        rw [List.chain'_cons']
        exact ⟨fun y hy => ihc.2 t rfl y (Option.mem_def.mp hy), ihc.1⟩
      · intro p hp
        simp [ThrottleState.refTime] at hp
    | cooling p =>
      have hpt : p ≤ t := hr p rfl (t, a) rfl
      by_cases h : p + wait ≤ t
      · have hstep : throttleStep wait (.cooling p) t a =
            ([(t, a)], .cooling t) := by
          simp [throttleStep, h]
        have hall : throttleAll wait (.cooling p) ((t, a) :: rest) =
            (t, a) :: throttleAll wait (.cooling t) rest := by
          simp [throttleAll, hstep]
        have ihc := ih (.cooling t) hs' (by
          intro p' hp' c' hc'
          simp [ThrottleState.refTime] at hp'
          subst hp'
          exact hhead c' hc')
        rw [hall]
        constructor
        · rw [List.chain'_cons']
          exact ⟨fun y hy => ihc.2 t rfl y (Option.mem_def.mp hy), ihc.1⟩
        · intro p' hp' y hy
          simp [ThrottleState.refTime] at hp'
          subst hp'
          simp at hy
          subst hy
          exact h
      · have hstep : throttleStep wait (.cooling p) t a =
            ([], .scheduled p a) := by
          simp [throttleStep, h]
        have hall : throttleAll wait (.cooling p) ((t, a) :: rest) =
            throttleAll wait (.scheduled p a) rest := by
          simp [throttleAll, hstep]
        have ihs := ih (.scheduled p a) hs' (by
          intro p' hp' c' hc'
          simp [ThrottleState.refTime] at hp'
          subst hp'
          exact Nat.le_trans hpt (hhead c' hc'))
        rw [hall]
        refine ⟨ihs.1, ?_⟩
        intro p' hp' y hy
        simp [ThrottleState.refTime] at hp'
        subst hp'
        exact ihs.2 p rfl y hy
    | scheduled p b =>
      have hpt : p ≤ t := hr p rfl (t, a) rfl
      by_cases h1 : p + wait ≤ t
      · by_cases h2 : p + wait + wait ≤ t
        · have hstep : throttleStep wait (.scheduled p b) t a =
              ([(p + wait, b), (t, a)], .cooling t) := by
            simp [throttleStep, h1, h2]
          have hall : throttleAll wait (.scheduled p b) ((t, a) :: rest) =
              (p + wait, b) :: (t, a) ::
                throttleAll wait (.cooling t) rest := by
            simp [throttleAll, hstep]
          have ihc := ih (.cooling t) hs' (by
            intro p' hp' c' hc'
            simp [ThrottleState.refTime] at hp'
            subst hp'
            exact hhead c' hc')
          rw [hall]
          constructor
          · rw [List.chain'_cons', List.chain'_cons']
            refine ⟨?_, ?_, ihc.1⟩
            · intro y hy
              simp at hy
              subst hy
              exact h2
            · exact fun y hy => ihc.2 t rfl y (Option.mem_def.mp hy)
          · intro p' hp' y hy
            simp [ThrottleState.refTime] at hp'
            subst hp'
            simp at hy
            subst hy
            exact Nat.le_refl _
        · have hstep : throttleStep wait (.scheduled p b) t a =
              ([(p + wait, b)], .scheduled (p + wait) a) := by
            simp [throttleStep, h1, h2]
          have hall : throttleAll wait (.scheduled p b) ((t, a) :: rest) =
              (p + wait, b) ::
                throttleAll wait (.scheduled (p + wait) a) rest := by
            simp [throttleAll, hstep]
          have ihs := ih (.scheduled (p + wait) a) hs' (by
            intro p' hp' c' hc'
            simp [ThrottleState.refTime] at hp'
            subst hp'
            exact Nat.le_trans h1 (hhead c' hc'))
          rw [hall]
          constructor
          · rw [List.chain'_cons']
            exact ⟨fun y hy => ihs.2 (p + wait) rfl y (Option.mem_def.mp hy),
              ihs.1⟩
          · intro p' hp' y hy
            simp [ThrottleState.refTime] at hp'
            subst hp'
            simp at hy
            subst hy
            exact Nat.le_refl _
      · have hstep : throttleStep wait (.scheduled p b) t a =
            ([], .scheduled p a) := by
          simp [throttleStep, h1]
        have hall : throttleAll wait (.scheduled p b) ((t, a) :: rest) =
            throttleAll wait (.scheduled p a) rest := by
          simp [throttleAll, hstep]
        have ihs := ih (.scheduled p a) hs' (by
          intro p' hp' c' hc'
          simp [ThrottleState.refTime] at hp'
          subst hp'
          exact Nat.le_trans hpt (hhead c' hc'))
        rw [hall]
        refine ⟨ihs.1, ?_⟩
        intro p' hp' y hy
        simp [ThrottleState.refTime] at hp'
        subst hp'
        exact ihs.2 p rfl y hy

/-- C3: every setTitle call posts its SET_TITLE event synchronously
whatever the throttle state; the throttled suggestion search follows
standard throttle semantics over a 500 ms window: the first call from the
initial state fires immediately, a call strictly inside the window fires
nothing (it only records itself as the trailing call, overwriting the
pending arguments), and any two fires of a sorted call sequence —
trailing fires included — are at least 500 ms apart, so at most one
request fires per 500 ms window. -/
theorem setTitle_throttle (title : String) (t₀ : Nat)
    (st₀ : ThrottleState String) (w : World α)
    (calls : List (Nat × String))
    (hsorted : List.Chain' (fun x y => x.1 ≤ y.1) calls) :
    (setTitle title t₀ st₀ w).1.bus = w.bus ++ [Event.SET_TITLE title] ∧
    (∀ t a rest, calls = (t, a) :: rest →
      (throttleAll 500 ThrottleState.start calls).head? = some (t, a)) ∧
    (∀ p t, ∀ a : String, t < p + 500 →
      throttleStep 500 (ThrottleState.cooling p) t a =
        ([], ThrottleState.scheduled p a)) ∧
    (∀ p t, ∀ a b : String, t < p + 500 →
      throttleStep 500 (ThrottleState.scheduled p b) t a =
        ([], ThrottleState.scheduled p a)) ∧
    List.Chain' (fun x y => x.1 + 500 ≤ y.1)
      (throttleAll 500 ThrottleState.start calls) := by
  refine ⟨foldl_fire_bus _ _, ?_, ?_, ?_, ?_⟩
  · intro t a rest hc
    subst hc
    rfl
  · intro p t a ht
    have hn : ¬ (p + 500 ≤ t) := Nat.not_le.mpr ht
    simp [throttleStep, hn]
  · intro p t a b ht
    have hn : ¬ (p + 500 ≤ t) := Nat.not_le.mpr ht
    simp [throttleStep, hn]
  · exact (throttleAll_gapFrom 500 calls ThrottleState.start hsorted
      (by intro p hp c hc; simp [ThrottleState.refTime] at hp)).1

/-- C3 witness: the throttle theorem evaluated on a concrete sorted call
sequence. -/
theorem setTitle_throttle_witness :
    List.Chain' (fun x y : Nat × String => x.1 ≤ y.1)
      [(0, "a"), (100, "ab"), (700, "abc")] ∧
    ((setTitle "a" 0 ThrottleState.start sampleWorld).1.bus =
      sampleWorld.bus ++ [Event.SET_TITLE "a"] ∧
    (∀ t a rest,
      ([(0, "a"), (100, "ab"), (700, "abc")] : List (Nat × String)) =
          (t, a) :: rest →
      (throttleAll 500 ThrottleState.start
        [(0, "a"), (100, "ab"), (700, "abc")]).head? = some (t, a)) ∧
    (∀ p t, ∀ a : String, t < p + 500 →
      throttleStep 500 (ThrottleState.cooling p) t a =
        ([], ThrottleState.scheduled p a)) ∧
    (∀ p t, ∀ a b : String, t < p + 500 →
      throttleStep 500 (ThrottleState.scheduled p b) t a =
        ([], ThrottleState.scheduled p a)) ∧
    List.Chain' (fun x y => x.1 + 500 ≤ y.1)
      (throttleAll 500 ThrottleState.start
        [(0, "a"), (100, "ab"), (700, "abc")])) :=
  ⟨by norm_num [List.chain'_cons], setTitle_throttle "a" 0
    ThrottleState.start sampleWorld [(0, "a"), (100, "ab"), (700, "abc")]
    (by norm_num [List.chain'_cons])⟩

/-- C4 counterexample: with the draft's product "firefox" and
setTitle("t") called at 0, 50 and 100 ms, the complete run fires TWO
suggestion GETs — the leading one at 0 ms and the trailing one released at
500 ms — not exactly one: the calls inside the window schedule a trailing
fire which the end of the 500 ms window delivers. -/
theorem burst_fires_two_requests :
    (runScenario [(0, "t"), (50, "t"), (100, "t")] sampleWorld).requests =
      [Request.get "/api/2/search/suggest"
        { q := "t", max_questions := 2, max_documents := 2,
          product := "firefox" },
       Request.get "/api/2/search/suggest"
        { q := "t", max_questions := 2, max_documents := 2,
          product := "firefox" }] ∧
    (runScenario [(0, "t"), (50, "t"), (100, "t")]
        sampleWorld).requests.length ≠ 1 :=
  ⟨rfl, by decide⟩

/-- C4 (amended): during the 100 ms burst itself exactly one GET fires —
the leading call at 0 ms, with q = "t" and the draft's product "firefox" —
and the burst leaves exactly one trailing fire scheduled, which delivers a
second GET with the latest title "t" at 500 ms. -/
theorem burst_one_request_then_trailing :
    (runSetTitles [(0, "t"), (50, "t"), (100, "t")]
        sampleWorld).1.requests =
      [Request.get "/api/2/search/suggest"
        { q := "t", max_questions := 2, max_documents := 2,
          product := "firefox" }] ∧
    (runSetTitles [(0, "t"), (50, "t"), (100, "t")] sampleWorld).2 =
      ThrottleState.scheduled 0 "t" ∧
    throttleFlush 500
      (runSetTitles [(0, "t"), (50, "t"), (100, "t")] sampleWorld).2 =
      [(500, "t")] :=
  ⟨rfl, rfl, rfl⟩

end AAQ
